import Mathlib

/-!
# Verification of the baynext-ml configuration / orchestration layer

Shallow embedding, in Lean 4, of the glue code of the `baynext-ml`
repository: the pydantic configuration model (`src/baynext/config/*`),
the load/train tasks (`src/baynext/tasks/*`), the four-stage pipeline
(`src/baynext/pipeline.py`), and the Typer CLI `train` command
(`packages/cli/src/baynext/ml/cli/commands/training.py`).

External collaborators (the Meridian modeling library, MLflow, the
pydantic-settings merge engine, Typer) are modelled as oracles: opaque
values, per-call outcome functions, or documented-contract semantics.
What this file embeds faithfully is the repository's own code: which
arguments each call site passes, which validation constraints the config
declares, the order of stages, and the error-handling structure.

Python `float` hyperparameters (`mu`, `sigma`, `roi_mu`, `roi_sigma`)
are only marshalled by this repository, never computed with; they are
embedded as exact rationals.
-/

/-- stand-in for Python `float` values that the code only carries around -/
abbrev PyFloat := Rat

/-! ## Data model: `src/baynext/config/load.py` -/

/-- `KpiType = Literal["non_revenue", "revenue"]` -/
inductive KpiType
  | non_revenue
  | revenue
deriving DecidableEq

/-- `CoordToCols` (config/load.py): mapping between desired and actual
column names in the input data. -/
structure CoordToCols where
  time : String
  geo : String
  kpi : String
  controls : Option (List String)
  revenue_per_kpi : Option String
  population : String
  media : Option (List String)
  media_spend : Option (List String)
  reach : Option (List String)
  frequency : Option (List String)
  rf_spend : Option (List String)
  non_media_treatments : Option (List String)
  organic_media : Option (List String)
  organic_reach : Option (List String)
  organic_frequency : Option (List String)
deriving DecidableEq

/-- `SourceType = Literal["csv"]` -/
inductive SourceType
  | csv
deriving DecidableEq

/-- `SourceConfig` (config/load.py). -/
structure SourceConfig where
  type : SourceType
  name : Option String
  path : String
deriving DecidableEq

/-- Python `dict[str, str]`, embedded as an association list. -/
abbrev StrDict := List (String × String)

/-- `LoadConfig` (config/load.py). -/
structure LoadConfig where
  source : SourceConfig
  kpi_type : KpiType
  coords_to_columns : CoordToCols
  media_to_channel : Option StrDict
  media_spend_to_channel : Option StrDict
  reach_to_channel : Option StrDict
  frequency_to_channel : Option StrDict
  rf_spend_to_channel : Option StrDict
  organic_reach_to_channel : Option StrDict
  organic_frequency_to_channel : Option StrDict
deriving DecidableEq

/-- pydantic validation of `LoadConfig`: `config/load.py` declares no
`Field` constraint and no validator on any field, so every well-typed
value passes validation. -/
def LoadConfig.validate (_ : LoadConfig) : Bool := true

/-! ## Data model: `src/baynext/config/distributions.py` and `priors.py` -/

/-- the two distribution families of `distributions.py` -/
inductive DistFamily
  | log_normal
  | normal
deriving DecidableEq

/-- `LogNormalDistributionConfig` / `NormalDistributionConfig`: a
distribution family tag together with `mu` and `sigma`.  The `type`
Literal discriminator of the pydantic union is the `family` tag. -/
structure DistributionConfig where
  family : DistFamily
  mu : PyFloat
  sigma : PyFloat
deriving DecidableEq

/-- `_ROI_MU = 0.2` (distributions.py) -/
def roiMuDefault : PyFloat := 0.2

/-- `_ROI_SIGMA = 0.9` (distributions.py) -/
def roiSigmaDefault : PyFloat := 0.9

/-- result of `DistributionConfig.to_tfp`: the TensorFlow Probability
distribution object, recorded as the constructor arguments passed. -/
structure TfpDist where
  family : DistFamily
  loc : PyFloat
  scale : PyFloat
  name : String
deriving DecidableEq

/-- `to_tfp` of both distribution configs: build the tfp distribution of
the configured family with `loc=mu`, `scale=sigma` and the given name. -/
def DistributionConfig.to_tfp (d : DistributionConfig) (name : String) : TfpDist :=
  { family := d.family, loc := d.mu, scale := d.sigma, name := name }

/-- `RoiMConfig` (priors.py). -/
structure RoiMConfig where
  distribution : DistributionConfig
deriving DecidableEq

/-- default `RoiMConfig()`: a `LogNormalDistributionConfig()` with the
module-level default `mu`/`sigma`. -/
def RoiMConfig.mkDefault : RoiMConfig :=
  { distribution := { family := .log_normal, mu := roiMuDefault, sigma := roiSigmaDefault } }

/-- `RoiMConfig.to_tfp`: delegates to the distribution with name `"roi_m"`. -/
def RoiMConfig.to_tfp (c : RoiMConfig) : TfpDist :=
  DistributionConfig.to_tfp c.distribution "roi_m"

/-! ## Data model: `src/baynext/config/sampling.py` and `train.py` -/

/-- `SamplePriorConfig` (sampling.py): `n_draws` with `Field(gt=0)`. -/
structure SamplePriorConfig where
  n_draws : Int
deriving DecidableEq

/-- `_N_DRAWS = 100` -/
def SamplePriorConfig.mkDefault : SamplePriorConfig := { n_draws := 100 }

/-- pydantic validation of `SamplePriorConfig`: the only declared
constraint is `gt=0` on `n_draws`. -/
def SamplePriorConfig.validate (c : SamplePriorConfig) : Bool :=
  c.n_draws > 0

/-- `SamplePosteriorConfig` (sampling.py): `n_chains`, `n_adapt`,
`n_burnin`, `n_keep` are plain `int` fields; `max_tree_depth` has
`Field(ge=0)`. -/
structure SamplePosteriorConfig where
  n_chains : Int
  n_adapt : Int
  n_burnin : Int
  n_keep : Int
  max_tree_depth : Int
deriving DecidableEq

/-- defaults `_N_CHAINS = 7`, `_N_ADAPT = 500`, `_N_BURNIN = 500`,
`_N_KEEP = 1000`, `max_tree_depth = 10`. -/
def SamplePosteriorConfig.mkDefault : SamplePosteriorConfig :=
  { n_chains := 7, n_adapt := 500, n_burnin := 500, n_keep := 1000, max_tree_depth := 10 }

/-- pydantic validation of `SamplePosteriorConfig`: the only declared
constraint is `ge=0` on `max_tree_depth`; the four count fields carry no
constraint. -/
def SamplePosteriorConfig.validate (c : SamplePosteriorConfig) : Bool :=
  c.max_tree_depth ≥ 0

/-- `PriorConfig` (train.py). -/
structure PriorConfig where
  roi_m : RoiMConfig
deriving DecidableEq

/-- default `PriorConfig()` -/
def PriorConfig.mkDefault : PriorConfig := { roi_m := RoiMConfig.mkDefault }

/-- `media_effects_dist: Literal["normal", "log_normal"]` -/
inductive MediaEffectsDist
  | normal
  | log_normal
deriving DecidableEq

/-- `ModelSpecConfig` (train.py): prior, effect distribution shape,
adstock/saturation ordering flag, and lag window (`Field(8, ge=0)`,
optional). -/
structure ModelSpecConfig where
  prior : PriorConfig
  media_effects_dist : MediaEffectsDist
  hill_before_adstock : Bool
  max_lag : Option Int
deriving DecidableEq

/-- default `ModelSpecConfig()` -/
def ModelSpecConfig.mkDefault : ModelSpecConfig :=
  { prior := PriorConfig.mkDefault
    media_effects_dist := .log_normal
    hill_before_adstock := false
    max_lag := some 8 }

/-- pydantic validation of `ModelSpecConfig`: `ge=0` on `max_lag` when a
value is present. -/
def ModelSpecConfig.validate (c : ModelSpecConfig) : Bool :=
  match c.max_lag with
  | none => true
  | some v => v ≥ 0

/-- `TrainConfig` (train.py). -/
structure TrainConfig where
  spec : ModelSpecConfig
  sample_prior : SamplePriorConfig
  sample_posterior : SamplePosteriorConfig
deriving DecidableEq

/-- default `TrainConfig()` -/
def TrainConfig.mkDefault : TrainConfig :=
  { spec := ModelSpecConfig.mkDefault
    sample_prior := SamplePriorConfig.mkDefault
    sample_posterior := SamplePosteriorConfig.mkDefault }

/-- pydantic validation of `TrainConfig`: a nested model is valid when
each nested config passes its own declared constraints. -/
def TrainConfig.validate (c : TrainConfig) : Bool :=
  ModelSpecConfig.validate c.spec
    && SamplePriorConfig.validate c.sample_prior
    && SamplePosteriorConfig.validate c.sample_posterior

/-! ## Data model: `src/baynext/config/log.py` and pipeline.py config -/

/-- `LogLevel` Literal -/
inductive LogLevel
  | debug | info | warning | error | critical
deriving DecidableEq

/-- `LogConfig` (config/log.py): four boolean toggles plus the level. -/
structure LogConfig where
  level : LogLevel
  metrics : Bool
  dataset : Bool
  model : Bool
  system_metrics : Bool
deriving DecidableEq

/-- default `LogConfig()`: every toggle `True`, level `INFO`. -/
def LogConfig.mkDefault : LogConfig :=
  { level := .info, metrics := true, dataset := true, model := true, system_metrics := true }

/-- `AnalyzeConfig` is imported by `config/pipeline.py` from
`baynext.config.analyze`; the pipeline code never reads any of its
fields, so it is embedded as an empty record. -/
structure AnalyzeConfig where
deriving DecidableEq

/-- `PipelineConfig` (config/pipeline.py): run identity plus the four
configuration slices. -/
structure PipelineConfig where
  run_name : Option String
  message : String
  load : LoadConfig
  train : TrainConfig
  analyze : AnalyzeConfig
  log : LogConfig
deriving DecidableEq

/-! ## `src/baynext/tasks/load.py` -/

/-- the arguments `load_task` passes to the external
`CsvDataLoader(...)` constructor before calling `.load()` -/
structure CsvLoaderCall where
  csv_path : String
  kpi_type : KpiType
  coord_to_columns : CoordToCols
  media_to_channel : Option StrDict
  media_spend_to_channel : Option StrDict
deriving DecidableEq

/-- `load_task` (tasks/load.py): dumps `coords_to_columns`, and for a
`csv` source builds a `CsvDataLoader` from the path, KPI type, the
coordinate mapping and only the two media channel remaps.  (`SourceType`
has `csv` as its sole literal, so the `NotImplementedError` branch for
other source types is unreachable and the embedding is total.) -/
def load_task (load_config : LoadConfig) : CsvLoaderCall :=
  match load_config.source.type with
  | .csv =>
      { csv_path := load_config.source.path
        kpi_type := load_config.kpi_type
        coord_to_columns := load_config.coords_to_columns
        media_to_channel := load_config.media_to_channel
        media_spend_to_channel := load_config.media_spend_to_channel }

/-! ## `src/baynext/tasks/train.py` -/

/-- opaque Meridian `InputData` value produced by the external loader -/
structure InputData where
  token : Nat
deriving DecidableEq

/-- arguments of the `PriorDistribution(roi_m=...)` call -/
structure PriorDistributionArgs where
  roi_m : TfpDist
deriving DecidableEq

/-- arguments passed to the external `spec.ModelSpec(...)` constructor.
`none` in an `Option` field means the keyword argument was not passed at
the call site (the external library default applies). -/
structure ModelSpecArgs where
  prior : PriorDistributionArgs
  media_effects_dist : Option MediaEffectsDist
  hill_before_adstock : Option Bool
  max_lag : Option (Option Int)
deriving DecidableEq

/-- arguments of `mmm.sample_prior(**sample_prior.model_dump(), seed=123)` -/
structure SamplePriorCall where
  n_draws : Int
  seed : Int
deriving DecidableEq

/-- arguments of `mmm.sample_posterior(**sample_posterior.model_dump(), seed=1)` -/
structure SamplePosteriorCall where
  n_chains : Int
  n_adapt : Int
  n_burnin : Int
  n_keep : Int
  max_tree_depth : Int
  seed : Int
deriving DecidableEq

/-- everything `train_task` hands to the external library: the
`Meridian(...)` constructor arguments and the two sampling calls. -/
structure TrainCall where
  input_data : InputData
  model_spec : ModelSpecArgs
  sample_prior_call : SamplePriorCall
  sample_posterior_call : SamplePosteriorCall
deriving DecidableEq

/-- `train_task` (tasks/train.py): builds a `PriorDistribution` from the
configured ROI prior, a `ModelSpec` passing `prior`,
`media_effects_dist` and `hill_before_adstock` (and no other keyword),
then delegates prior and posterior sampling with the configured counts
and fixed seeds. -/
def train_task (input_data : InputData) (train_config : TrainConfig) : TrainCall :=
  let prior : PriorDistributionArgs :=
    { roi_m := RoiMConfig.to_tfp train_config.spec.prior.roi_m }
  let model_spec : ModelSpecArgs :=
    { prior := prior
      media_effects_dist := some train_config.spec.media_effects_dist
      hill_before_adstock := some train_config.spec.hill_before_adstock
      max_lag := none }
  { input_data := input_data
    model_spec := model_spec
    sample_prior_call :=
      { n_draws := train_config.sample_prior.n_draws, seed := 123 }
    sample_posterior_call :=
      { n_chains := train_config.sample_posterior.n_chains
        n_adapt := train_config.sample_posterior.n_adapt
        n_burnin := train_config.sample_posterior.n_burnin
        n_keep := train_config.sample_posterior.n_keep
        max_tree_depth := train_config.sample_posterior.max_tree_depth
        seed := 1 } }

/-! ## CLI: `packages/cli/src/baynext/ml/cli/commands/training.py` -/

/-- Python whitespace characters recognised by `str.strip()` (ASCII). -/
def isPySpace (c : Char) : Bool :=
  c = ' ' || c = '\t' || c = '\n' || c = '\r' || c = '\x0b' || c = '\x0c'

/-- `str.strip()` on a character list: drop whitespace at both ends
(right end first, then left end). -/
def pyStripList (l : List Char) : List Char :=
  ((l.reverse.dropWhile isPySpace).reverse).dropWhile isPySpace

/-- Python `s.strip()` -/
def pyStrip (s : String) : String :=
  String.mk (pyStripList s.data)

/-- Python `s.split(",")` on a character list: maximal segments between
commas; `"".split(",") == [""]`, and adjacent commas yield empty
segments. -/
def pySplit : List Char → List (List Char)
  | [] => [[]]
  | c :: rest =>
      if c = ',' then [] :: pySplit rest
      else
        match pySplit rest with
        | [] => [[c]]
        | cur :: parts => (c :: cur) :: parts

/-- Python `s.split(",")` -/
def pySplitStr (s : String) : List String :=
  (pySplit s.data).map String.mk

/-- the mandatory `controls` flag:
`[c.strip() for c in controls.split(",") if c.strip()]` -/
def parseControls (s : String) : List String :=
  ((pySplitStr s).filter (fun c => pyStrip c ≠ "")).map pyStrip

/-- an optional comma-separated list flag:
`[m.strip() for m in v.split(",") if m.strip()] if v else None`.
A missing flag is `none`; Python string truthiness makes the empty
string also yield `None`. -/
def parseListFlag : Option String → Option (List String)
  | none => none
  | some s => if s = "" then none else some (parseControls s)

/-- Python truthiness of an optional list: `None` and `[]` are falsy. -/
def pyTruthy : Option (List String) → Bool
  | none => false
  | some l => !l.isEmpty

/-- length used in `len(media_list) != len(media_spend_list)`; the guard
only reads it under truthiness, where the option is `some`. -/
def optLen (o : Option (List String)) : Nat :=
  (o.getD []).length

/-- arguments of the Typer `train` command (training.py).  `kpi_type` is
the external `KPIType` enum, carried as a string.  Typer option
constraints (`min=` bounds, path existence) are enforced by Typer before
the command body runs and are external to this embedding. -/
structure CliTrainArgs where
  csv_path : String
  kpi_type : String
  time : String
  kpi : String
  controls : String
  geo : String
  population : String
  revenue_per_kpi : Option String
  media : Option String
  media_spend : Option String
  organic_media : Option String
  non_media_treatments : Option String
  roi_mu : PyFloat
  roi_sigma : PyFloat
  max_lag : Int
  n_draws : Int
  n_chains : Int
  n_adapt : Int
  n_burnin : Int
  n_keep : Int
  output : String
  verbose : Bool
deriving DecidableEq

/-- the keyword arguments of the `run_training_pipeline(...)` call -/
structure TrainingPipelineCall where
  csv_path : String
  kpi_type : String
  time : String
  kpi : String
  controls : List String
  geo : String
  population : String
  revenue_per_kpi : Option String
  media : Option (List String)
  media_spend : Option (List String)
  organic_media : Option (List String)
  non_media_treatments : Option (List String)
  roi_mu : PyFloat
  roi_sigma : PyFloat
  max_lag : Int
  n_draws : Int
  n_chains : Int
  n_adapt : Int
  n_burnin : Int
  n_keep : Int
  file_path : String
deriving DecidableEq

/-- console output of the command body that the claims are about -/
inductive CliEv
  | consoleError (msg : String)
deriving DecidableEq

/-- how far the command body gets: an early `typer.Exit(code)`, or the
invocation of the training pipeline with the marshalled arguments.
(Behaviour after the pipeline call — success message or exception
translation — happens after the invocation the claims are about and is
not modelled.) -/
inductive CliOutcome
  | exited (code : Nat)
  | invoked (call : TrainingPipelineCall)
deriving DecidableEq

/-- message printed on the mismatched-length branch -/
def mismatchMsg : String :=
  "Error: Media channels and media spend lists must have the same length"

/-- body of the `train` command (training.py): parse the five
comma-separated flags, check the media / media-spend length guard under
Python truthiness, and either exit with code 1 or invoke
`run_training_pipeline` with the parsed values.  (The `verbose`
configuration dump prints no errors and is omitted.) -/
def cliTrain (args : CliTrainArgs) : List CliEv × CliOutcome :=
  let controls_list := parseControls args.controls
  let media_list := parseListFlag args.media
  let media_spend_list := parseListFlag args.media_spend
  let organic_media_list := parseListFlag args.organic_media
  let non_media_treatments_list := parseListFlag args.non_media_treatments
  if pyTruthy media_list && pyTruthy media_spend_list
      && optLen media_list != optLen media_spend_list then
    ([CliEv.consoleError mismatchMsg], CliOutcome.exited 1)
  else
    ([],
     CliOutcome.invoked
       { csv_path := args.csv_path
         kpi_type := args.kpi_type
         time := args.time
         kpi := args.kpi
         controls := controls_list
         geo := args.geo
         population := args.population
         revenue_per_kpi := args.revenue_per_kpi
         media := media_list
         media_spend := media_spend_list
         organic_media := organic_media_list
         non_media_treatments := non_media_treatments_list
         roi_mu := args.roi_mu
         roi_sigma := args.roi_sigma
         max_lag := args.max_lag
         n_draws := args.n_draws
         n_chains := args.n_chains
         n_adapt := args.n_adapt
         n_burnin := args.n_burnin
         n_keep := args.n_keep
         file_path := args.output })

/-! ## Settings sources: `PipelineConfig.settings_customise_sources` -/

/-- a settings source, viewed as a partial map from (already normalised)
configuration keys to values -/
abbrev SrcMap := String → Option String

/-- the source parameters pydantic-settings hands to
`settings_customise_sources` -/
structure SourcesIn where
  init_settings : SrcMap
  env_settings : SrcMap
  dotenv_settings : SrcMap
  file_secret_settings : SrcMap

/-- the ambient sources the method constructs itself: YAML files by name
and the CLI argument source -/
structure AmbientSources where
  yamlFile : String → SrcMap
  cliArgs : SrcMap

/-- `_YAML_CONFIG_FILE = "baynext.yaml"` (config/pipeline.py) -/
def yamlConfigFile : String := "baynext.yaml"

/-- the `model_config = SettingsConfigDict(...)` of `PipelineConfig` -/
structure SettingsConfigDict where
  env_prefix : String
  env_nested_delimiter : String
  yaml_file : String
  json_file : String

/-- `PipelineConfig.model_config` as written in config/pipeline.py -/
def pipelineModelConfig : SettingsConfigDict :=
  { env_prefix := "BAYNEXT_"
    env_nested_delimiter := "__"
    yaml_file := "config.yaml"
    json_file := "config.json" }

/-- `PipelineConfig.settings_customise_sources`: returns the tuple
`(env_settings, dotenv_settings, YamlConfigSettingsSource(cls,
yaml_file=_YAML_CONFIG_FILE), CliSettingsSource(cls, ...))`, dropping
`init_settings` and `file_secret_settings`. -/
def settings_customise_sources (s : SourcesIn) (amb : AmbientSources) : List SrcMap :=
  [s.env_settings, s.dotenv_settings, amb.yamlFile yamlConfigFile, amb.cliArgs]

/-- merge semantics of pydantic-settings (library-documented contract):
sources earlier in the returned tuple take precedence, so resolution
returns the first source that provides the key. -/
def resolveSetting (sources : List SrcMap) (key : String) : Option String :=
  match sources with
  | [] => none
  | m :: rest =>
      match m key with
      | some v => some v
      | none => resolveSetting rest key

/-! ## Pipeline: `src/baynext/pipeline.py`

The four stage methods mutate a `Pipeline` object holding the two
intermediate results `data_` and `model_`.  Each stage is embedded as a
function from the pipeline state to the emitted events, the resulting
state, and an optional raised exception.  External calls that can raise
(the Meridian load / train tasks, and the analyzer / visualizer work of
a stage) are modelled by an oracle supplying each call's outcome. -/

/-- opaque trained Meridian model -/
structure MeridianModel where
  token : Nat
deriving DecidableEq

/-- Python exceptions relevant to the pipeline -/
inductive Err
  | valueError
  | external (code : Nat)
deriving DecidableEq

/-- observable events emitted by the pipeline code.
`enableSystemMetrics` stands for the MLflow action that turns on
system-metrics logging (`mlflow.enable_system_metrics_logging()` or
setting `MLFLOW_ENABLE_SYSTEM_METRICS_LOGGING`); it is part of the event
alphabet so that statements about it can be made, but no code under
`src/baynext` ever performs it. -/
inductive Ev
  | logInfo (msg : String)
  | logException (msg : String)
  | autologCall (logMetrics : Bool)
  | setTrackingUri
  | startRun (run_name : Option String) (description : String)
  | logConfigDict (cfg : PipelineConfig)
  | enableSystemMetrics
  | loadTaskCall (cfg : LoadConfig)
  | logDatasetEv (src : SourceConfig)
  | trainTaskCall (d : InputData) (tc : TrainConfig)
  | logModelEv (m : MeridianModel)
  | analyzerCall (m : MeridianModel)
  | visualizerCall (m : MeridianModel)
  | logTableEv (artifact : String)
  | logChartEv (artifact : String)
deriving DecidableEq

/-- outcome oracle for the external calls each stage makes.  A stage's
external work past the first Meridian object construction is abstracted
to a single outcome. -/
structure ExtOracle where
  loadRes : Except Err InputData
  trainRes : InputData → TrainConfig → Except Err MeridianModel
  analyzeRes : MeridianModel → Except Err Unit
  visualizeRes : MeridianModel → Except Err Unit

/-- the mutable fields of the `Pipeline` object -/
structure PipelineState where
  data_ : Option InputData
  model_ : Option MeridianModel
deriving DecidableEq

/-- fresh pipeline: `self.data_ = None`, `self.model_ = None` -/
def PipelineState.init : PipelineState := { data_ := none, model_ := none }

/-- a stage run: events emitted, state after, and the exception raised
(if any).  On an exception the state records exactly the mutations made
before the raise. -/
abbrev StageResult := List Ev × PipelineState × Option Err

/-- `Pipeline.load`: log the stage banner, run `tasks.load`, store the
result in `data_`, then (if `log.dataset`) log the dataset. -/
def Pipeline.load (ext : ExtOracle) (cfg : PipelineConfig) (st : PipelineState) :
    StageResult :=
  let banner := [Ev.logInfo "🔄 Start loading dataset..."]
  match ext.loadRes with
  | .error e => (banner ++ [Ev.loadTaskCall cfg.load], st, some e)
  | .ok d =>
      let st' := { st with data_ := some d }
      let evs := banner ++ [Ev.loadTaskCall cfg.load, Ev.logInfo "✅ Dataset loaded."]
      if cfg.log.dataset then
        (evs ++ [Ev.logInfo "🔄 Saving Meridian dataset...",
                 Ev.logDatasetEv cfg.load.source,
                 Ev.logInfo "✅ Meridian dataset saved."], st', none)
      else (evs, st', none)

/-- `Pipeline.train`: log the stage banner, raise `ValueError` if no
dataset is held, otherwise run `tasks.train` on the held dataset, store
the model, then (if `log.model`) log the model. -/
def Pipeline.train (ext : ExtOracle) (cfg : PipelineConfig) (st : PipelineState) :
    StageResult :=
  let banner := [Ev.logInfo "🧠 Start Meridian model training..."]
  match st.data_ with
  | none => (banner, st, some Err.valueError)
  | some d =>
      match ext.trainRes d cfg.train with
      | .error e => (banner ++ [Ev.trainTaskCall d cfg.train], st, some e)
      | .ok m =>
          let st' := { st with model_ := some m }
          let evs := banner ++ [Ev.trainTaskCall d cfg.train,
                                Ev.logInfo "✅ Meridian model training completed."]
          if cfg.log.model then
            (evs ++ [Ev.logInfo "🔄 Saving Meridian model...",
                     Ev.logModelEv m,
                     Ev.logInfo "✅ Meridian model saved!"], st', none)
          else (evs, st', none)

/-- `Pipeline.analyze`: raise `ValueError` if no model is held (before
any logging), otherwise log the banner, build the analyzer, and log the
four tables.  Note the stage reads no configuration slice. -/
def Pipeline.analyze (ext : ExtOracle) (st : PipelineState) : StageResult :=
  match st.model_ with
  | none => ([], st, some Err.valueError)
  | some m =>
      let evs := [Ev.logInfo "📊 Start analyzing model...", Ev.analyzerCall m]
      match ext.analyzeRes m with
      | .error e => (evs, st, some e)
      | .ok _ =>
          (evs ++ [Ev.logTableEv "adstock_decay.json",
                   Ev.logInfo "✅ Adstock decay table logged.",
                   Ev.logTableEv "hill_curves.json",
                   Ev.logInfo "✅ Hill curves table logged.",
                   Ev.logTableEv "baseline_summary_metrics.json",
                   Ev.logInfo "✅ Baseline summary metrics table logged.",
                   Ev.logTableEv "summary_metrics.json",
                   Ev.logInfo "✅ Summary metrics table logged."], st, none)

/-- `Pipeline.visualize`: raise `ValueError` if no model is held (before
any logging), otherwise log the banner and push the model-fit chart, the
media summary table and the five media summary charts. -/
def Pipeline.visualize (ext : ExtOracle) (st : PipelineState) : StageResult :=
  match st.model_ with
  | none => ([], st, some Err.valueError)
  | some m =>
      let evs := [Ev.logInfo "📈 Start visualizing model...", Ev.visualizerCall m]
      match ext.visualizeRes m with
      | .error e => (evs, st, some e)
      | .ok _ =>
          (evs ++ [Ev.logChartEv "model_fit.png",
                   Ev.logInfo "✅ Model fit chart logged.",
                   Ev.logTableEv "media_summary.json",
                   Ev.logInfo "✅ Media summary table logged.",
                   Ev.logChartEv "channel_contribution_area_chart.png",
                   Ev.logInfo "✅ Channel contribution area chart logged.",
                   Ev.logChartEv "contribution_waterfall_chart.png",
                   Ev.logInfo "✅ Contribution waterfall chart logged.",
                   Ev.logChartEv "contribution_pie_chart.png",
                   Ev.logInfo "✅ Contribution pie chart logged.",
                   Ev.logChartEv "spend_vs_contribution.png",
                   Ev.logInfo "✅ Spend vs Contribution chart logged.",
                   Ev.logChartEv "roi_bar_chart.png",
                   Ev.logInfo "✅ ROI bar chart logged."], st, none)

/-- exception messages of the four `try/except` blocks of `Pipeline.run` -/
def msgLoadErr : String := "❌ Error occurred while loading dataset."

/-- train block exception message -/
def msgTrainErr : String := "❌ Error occurred while training model."

/-- analyze block exception message -/
def msgAnalyzeErr : String := "❌ Error occurred while analyzing model."

/-- visualize block exception message -/
def msgVisualizeErr : String := "❌ Error occurred while visualizing model."

/-- `Pipeline.run`: the four stages in sequence, each wrapped in a
`try/except` that logs the stage's error message via
`logger.exception(...)` and re-raises the same exception, so no later
stage runs after a failure. -/
def Pipeline.run (ext : ExtOracle) (cfg : PipelineConfig) : List Ev × Option Err :=
  let start := [Ev.logInfo "⚡️ Starting Baynext ML pipeline"]
  let (e1, s1, r1) := Pipeline.load ext cfg PipelineState.init
  match r1 with
  | some err => (start ++ e1 ++ [Ev.logException msgLoadErr], some err)
  | none =>
    let (e2, s2, r2) := Pipeline.train ext cfg s1
    match r2 with
    | some err => (start ++ e1 ++ e2 ++ [Ev.logException msgTrainErr], some err)
    | none =>
      let (e3, s3, r3) := Pipeline.analyze ext s2
      match r3 with
      | some err => (start ++ e1 ++ e2 ++ e3 ++ [Ev.logException msgAnalyzeErr], some err)
      | none =>
        let (e4, _, r4) := Pipeline.visualize ext s3
        match r4 with
        | some err =>
            (start ++ e1 ++ e2 ++ e3 ++ e4 ++ [Ev.logException msgVisualizeErr], some err)
        | none =>
            (start ++ e1 ++ e2 ++ e3 ++ e4 ++
               [Ev.logInfo "✅ Baynext ML pipeline ended"], none)

/-- `run_pipeline` (pipeline.py): enable Meridian autologging with
`log_metrics` taken from the config, set the tracking URI, start the
MLflow run named from the config, log the config dict, and run the
pipeline.  An exception out of `Pipeline.run` propagates. -/
def run_pipeline (ext : ExtOracle) (cfg : PipelineConfig) : List Ev × Option Err :=
  let (evs, res) := Pipeline.run ext cfg
  ([Ev.autologCall cfg.log.metrics,
    Ev.setTrackingUri,
    Ev.startRun cfg.run_name cfg.message,
    Ev.logConfigDict cfg] ++ evs, res)

/-- the stage a pipeline event belongs to, for ordering statements -/
inductive StageTag
  | load | train | analyze | visualize
deriving DecidableEq

/-- the sequence of stage task invocations in an event trace -/
def stageCalls (evs : List Ev) : List StageTag :=
  evs.filterMap fun e =>
    match e with
    | Ev.loadTaskCall _ => some StageTag.load
    | Ev.trainTaskCall _ _ => some StageTag.train
    | Ev.analyzerCall _ => some StageTag.analyze
    | Ev.visualizerCall _ => some StageTag.visualize
    | _ => none

/-- whether a trace contains a `logger.exception` event -/
def hasException (evs : List Ev) : Bool :=
  evs.any fun e =>
    match e with
    | Ev.logException _ => true
    | _ => false

/-! ## Concrete fixtures used by witnesses and counterexamples -/

/-- a concrete coordinate mapping -/
def coordsEx : CoordToCols :=
  { time := "time", geo := "geo", kpi := "conversions"
    controls := some ["sentiment"]
    revenue_per_kpi := some "revenue_per_conversion"
    population := "population"
    media := some ["ch0_imp", "ch1_imp"]
    media_spend := some ["ch0_spend", "ch1_spend"]
    reach := none, frequency := none, rf_spend := none
    non_media_treatments := none
    organic_media := none, organic_reach := none, organic_frequency := none }

/-- a concrete CSV source -/
def sourceEx : SourceConfig :=
  { type := .csv, name := some "geo_media", path := "data/geo_media.csv" }

/-- a concrete load configuration -/
def loadCfgEx : LoadConfig :=
  { source := sourceEx
    kpi_type := .non_revenue
    coords_to_columns := coordsEx
    media_to_channel := some [("ch0_imp", "Channel0"), ("ch1_imp", "Channel1")]
    media_spend_to_channel := some [("ch0_spend", "Channel0"), ("ch1_spend", "Channel1")]
    reach_to_channel := none
    frequency_to_channel := none
    rf_spend_to_channel := none
    organic_reach_to_channel := none
    organic_frequency_to_channel := none }

/-- a concrete pipeline configuration -/
def pipelineCfgEx : PipelineConfig :=
  { run_name := some "run-1", message := "test run"
    load := loadCfgEx, train := TrainConfig.mkDefault
    analyze := {}, log := LogConfig.mkDefault }

/-- oracle on which every external call succeeds -/
def extOk : ExtOracle :=
  { loadRes := .ok ⟨0⟩
    trainRes := fun _ _ => .ok ⟨1⟩
    analyzeRes := fun _ => .ok ()
    visualizeRes := fun _ => .ok () }

/-- oracle on which the training task raises -/
def extTrainFail : ExtOracle :=
  { loadRes := .ok ⟨0⟩
    trainRes := fun _ _ => .error (.external 7)
    analyzeRes := fun _ => .ok ()
    visualizeRes := fun _ => .ok () }

/-! ## C3 — positivity of the sampling-count constraints -/

/-- a posterior sampling config with `n_chains = 0` and all other fields
at their source defaults -/
def postZeroChains : SamplePosteriorConfig :=
  { SamplePosteriorConfig.mkDefault with n_chains := 0 }

/-- C3 counterexample: the claim says TrainConfig validation rejects any
configuration in which one of the six sampling-count / tree-depth fields
is zero or negative; but a `TrainConfig` whose posterior sampling config
has `n_chains = 0` (and even `n_burnin = -5`) passes validation, because
`sampling.py` puts no constraint on `n_chains`, `n_adapt`, `n_burnin`,
`n_keep`. -/
theorem c3_zero_and_negative_counts_accepted :
    TrainConfig.validate
      { TrainConfig.mkDefault with
          sample_posterior := { postZeroChains with n_burnin := -5 } } = true ∧
    ({ postZeroChains with n_burnin := (-5 : Int) } : SamplePosteriorConfig).n_chains = 0 ∧
    ({ postZeroChains with n_burnin := (-5 : Int) } : SamplePosteriorConfig).n_burnin = -5 := by
  decide

/-- C3 amended: of the six fields, only `n_draws` is constrained
positive (`gt=0`); `max_tree_depth` is constrained non-negative (`ge=0`,
so zero is accepted); `n_chains`, `n_adapt`, `n_burnin` and `n_keep` are
unconstrained, and posterior-config validation is independent of their
values. -/
theorem c3_validation_exact_constraints
    (p : SamplePriorConfig) (q : SamplePosteriorConfig) (tc : TrainConfig)
    (n1 n2 n3 n4 : Int) :
    (SamplePriorConfig.validate p = true ↔ 0 < p.n_draws) ∧
    (SamplePosteriorConfig.validate q = true ↔ 0 ≤ q.max_tree_depth) ∧
    (SamplePosteriorConfig.validate
        { q with n_chains := n1, n_adapt := n2, n_burnin := n3, n_keep := n4 }
      = SamplePosteriorConfig.validate q) ∧
    (TrainConfig.validate tc = true ↔
      (ModelSpecConfig.validate tc.spec = true ∧
        0 < tc.sample_prior.n_draws ∧
        0 ≤ tc.sample_posterior.max_tree_depth)) := by
  refine ⟨by simp [SamplePriorConfig.validate], by simp [SamplePosteriorConfig.validate],
    rfl, ?_⟩
  simp [TrainConfig.validate, SamplePriorConfig.validate, SamplePosteriorConfig.validate,
    Bool.and_eq_true, and_assoc]

/-! ## C4 — unequal media lists pass local validation -/

/-- C4: a `LoadConfig` whose `media` and `media_spend` column lists are
both present with unequal lengths passes the repository's own
(pydantic) validation, and `load_task` still forwards both lists
unchanged to the external CSV loader — no local length check exists on
this path. -/
theorem c4_unequal_media_lists_pass_validation
    (cfg : LoadConfig) (ms mss : List String)
    (hm : cfg.coords_to_columns.media = some ms)
    (hs : cfg.coords_to_columns.media_spend = some mss)
    (hne : ms.length ≠ mss.length) :
    LoadConfig.validate cfg = true ∧
    (load_task cfg).coord_to_columns.media = some ms ∧
    (load_task cfg).coord_to_columns.media_spend = some mss := by
  obtain ⟨⟨ty, nm, pa⟩, kt, ctc, m1, m2, m3, m4, m5, m6, m7⟩ := cfg
  cases ty
  exact ⟨rfl, hm, hs⟩

/-- a load config with two media columns but one media-spend column -/
def loadCfgUnequal : LoadConfig :=
  { loadCfgEx with
      coords_to_columns :=
        { coordsEx with media := some ["m1", "m2"], media_spend := some ["s1"] } }

/-- C4 witness at a concrete unequal-length configuration -/
theorem c4_witness :
    LoadConfig.validate loadCfgUnequal = true ∧
    (load_task loadCfgUnequal).coord_to_columns.media = some ["m1", "m2"] ∧
    (load_task loadCfgUnequal).coord_to_columns.media_spend = some ["s1"] :=
  c4_unequal_media_lists_pass_validation loadCfgUnequal ["m1", "m2"] ["s1"]
    (by decide) (by decide) (by decide)

/-! ## C10 — load_task ignores the five RF / organic channel maps -/

/-- C10: `load_task` forwards only the path, KPI type, coordinate
mapping and the two media channel remaps, so two `LoadConfig` values
agreeing on those (and differing arbitrarily in `reach_to_channel`,
`frequency_to_channel`, `rf_spend_to_channel`,
`organic_reach_to_channel`, `organic_frequency_to_channel`) issue the
identical loader invocation. -/
theorem c10_load_task_ignores_unforwarded_channel_maps
    (c1 c2 : LoadConfig)
    (hsrc : c1.source = c2.source)
    (hkpi : c1.kpi_type = c2.kpi_type)
    (hcoords : c1.coords_to_columns = c2.coords_to_columns)
    (hm : c1.media_to_channel = c2.media_to_channel)
    (hms : c1.media_spend_to_channel = c2.media_spend_to_channel) :
    load_task c1 = load_task c2 := by
  obtain ⟨⟨ty1, nm1, pa1⟩, kt1, ctc1, a1, b1, r1, f1, s1, g1, h1⟩ := c1
  obtain ⟨⟨ty2, nm2, pa2⟩, kt2, ctc2, a2, b2, r2, f2, s2, g2, h2⟩ := c2
  cases ty1
  cases ty2
  simp_all [load_task]

/-- `loadCfgEx` with different RF / organic channel maps -/
def loadCfgRfVariant : LoadConfig :=
  { loadCfgEx with
      reach_to_channel := some [("r", "R")]
      organic_frequency_to_channel := some [("of", "OF")] }

/-- C10 witness: two concrete configs differing only in the RF channel
maps give the same loader call -/
theorem c10_witness :
    load_task loadCfgRfVariant = load_task loadCfgEx ∧
    loadCfgRfVariant.reach_to_channel ≠ loadCfgEx.reach_to_channel :=
  ⟨c10_load_task_ignores_unforwarded_channel_maps _ _ rfl rfl rfl rfl rfl, by decide⟩

/-! ## C2 — what the train stage forwards to the external library -/

/-- a train config whose lag window is set to a non-default value -/
def tcMaxLag3 : TrainConfig :=
  { TrainConfig.mkDefault with
      spec := { ModelSpecConfig.mkDefault with max_lag := some 3 } }

/-- C2: the train stage builds the prior specification from the
configured mean/stddev and family, carries `media_effects_dist` and
`hill_before_adstock` into the `ModelSpec` call and delegates prior and
posterior sampling with the configured counts — but, contrary to the
claim and to the `max_lag` field's own description in
`config/train.py`, the configured lag window is never passed to
`ModelSpec` (first conjunct: for every config the `max_lag` keyword is
absent from the call).  Evaluated at the failing input `tcMaxLag3`
(`max_lag = 3`): the built spec carries no lag window while every other
configured value is forwarded. -/
theorem c2_model_spec_drops_max_lag :
    (∀ (d : InputData) (tc : TrainConfig),
        (train_task d tc).model_spec.max_lag = none) ∧
    tcMaxLag3.spec.max_lag = some 3 ∧
    TrainConfig.validate tcMaxLag3 = true ∧
    (train_task ⟨0⟩ tcMaxLag3).model_spec.max_lag = none ∧
    (train_task ⟨0⟩ tcMaxLag3).model_spec.media_effects_dist
      = some tcMaxLag3.spec.media_effects_dist ∧
    (train_task ⟨0⟩ tcMaxLag3).model_spec.hill_before_adstock
      = some tcMaxLag3.spec.hill_before_adstock ∧
    (train_task ⟨0⟩ tcMaxLag3).model_spec.prior.roi_m
      = { family := .log_normal, loc := roiMuDefault, scale := roiSigmaDefault,
          name := "roi_m" } ∧
    (train_task ⟨0⟩ tcMaxLag3).sample_prior_call = { n_draws := 100, seed := 123 } ∧
    (train_task ⟨0⟩ tcMaxLag3).sample_posterior_call
      = { n_chains := 7, n_adapt := 500, n_burnin := 500, n_keep := 1000,
          max_tree_depth := 10, seed := 1 } := by
  exact ⟨fun d tc => rfl, by decide, by decide, rfl, rfl, rfl, rfl, rfl, rfl⟩

/-! ## C8 — comma-separated channel-list parsing -/

/-- `pyStripList` written through `List.rdropWhile` -/
theorem pyStripList_eq_rdrop (l : List Char) :
    pyStripList l = (l.rdropWhile isPySpace).dropWhile isPySpace := rfl

/-- the first character of a stripped list is not whitespace -/
theorem pyStripList_head_not_space (l : List Char) (c : Char)
    (hc : (pyStripList l).head? = some c) : isPySpace c = false := by
  have hne : pyStripList l ≠ [] := by
    intro h; rw [h] at hc; exact Option.noConfusion hc
  have h1 : some ((pyStripList l).head hne) = some c :=
    (List.head?_eq_head hne).symm.trans hc
  rw [Option.some.injEq] at h1
  rw [← h1]
  exact List.head_dropWhile_not isPySpace (l.rdropWhile isPySpace) hne

/-- the last character of a stripped list is not whitespace -/
theorem pyStripList_getLast_not_space (l : List Char) (c : Char)
    (hc : (pyStripList l).getLast? = some c) : isPySpace c = false := by
  have hne : pyStripList l ≠ [] := by
    intro h; rw [h] at hc; exact Option.noConfusion hc
  obtain ⟨t, ht⟩ := List.dropWhile_suffix (l := l.rdropWhile isPySpace) isPySpace
  rw [← pyStripList_eq_rdrop] at ht
  have hyne : l.rdropWhile isPySpace ≠ [] := by
    rw [← ht]; exact List.append_ne_nil_of_right_ne_nil t hne
  have hy : (l.rdropWhile isPySpace).getLast? = some c := by
    rw [← ht, List.getLast?_append_of_ne_nil t hne]; exact hc
  have h3 : some ((l.rdropWhile isPySpace).getLast hyne) = some c :=
    (List.getLast?_eq_getLast _ hyne).symm.trans hy
  rw [Option.some.injEq] at h3
  have h2 := List.rdropWhile_last_not isPySpace l hyne
  rw [h3] at h2
  rwa [Bool.not_eq_true] at h2

/-- stripping is idempotent on character lists -/
theorem pyStripList_idem (l : List Char) :
    pyStripList (pyStripList l) = pyStripList l := by
  have h1 : (pyStripList l).rdropWhile isPySpace = pyStripList l := by
    rw [List.rdropWhile_eq_self_iff]
    intro hl
    have := pyStripList_getLast_not_space l ((pyStripList l).getLast hl)
      ((List.getLast?_eq_getLast _ hl))
    simp [this]
  have h2 : (pyStripList l).dropWhile isPySpace = pyStripList l := by
    rw [List.dropWhile_eq_self_iff]
    intro hl
    have hne : pyStripList l ≠ [] := by
      intro h; rw [h] at hl; exact Nat.lt_irrefl 0 hl
    have hg : (pyStripList l).get ⟨0, hl⟩ = (pyStripList l).head hne :=
      List.get_mk_zero hl
    have := pyStripList_head_not_space l ((pyStripList l).head hne)
      (List.head?_eq_head hne)
    rw [hg]
    simp [this]
  calc pyStripList (pyStripList l)
      = ((pyStripList l).rdropWhile isPySpace).dropWhile isPySpace :=
        pyStripList_eq_rdrop _
    _ = pyStripList l := by rw [h1, h2]

/-- `str.strip` is idempotent -/
theorem pyStrip_idem (s : String) : pyStrip (pyStrip s) = pyStrip s :=
  congrArg String.mk (pyStripList_idem s.data)

/-- characters of `pyStrip` output, via `String.data` of `String.mk` -/
theorem pyStrip_data (s : String) : (pyStrip s).data = pyStripList s.data := rfl

/-- C8: channel-list parsing splits on commas, strips surrounding
whitespace from each item, and drops items that are empty after
stripping; a flag that is missing or the empty string yields `None`;
every kept item is non-empty and carries no surrounding whitespace; and
the pipeline invocation made by the `train` command receives exactly the
parsed lists (parsing happens before the pipeline is invoked). -/
theorem c8_list_flag_parsing
    (s : String) (v : Option String) (l : List String) (x : String)
    (args : CliTrainArgs) (evs : List CliEv) (call : TrainingPipelineCall) :
    parseListFlag none = none ∧
    parseListFlag (some "") = none ∧
    (s ≠ "" → parseListFlag (some s)
        = some (((pySplitStr s).map pyStrip).filter (fun y => y ≠ ""))) ∧
    (parseListFlag v = some l → x ∈ l →
        x ≠ "" ∧ pyStrip x = x ∧
        (∀ c ∈ x.data.head?, isPySpace c = false) ∧
        (∀ c ∈ x.data.getLast?, isPySpace c = false)) ∧
    (cliTrain args = (evs, CliOutcome.invoked call) →
        call.controls = parseControls args.controls ∧
        call.media = parseListFlag args.media ∧
        call.media_spend = parseListFlag args.media_spend ∧
        call.organic_media = parseListFlag args.organic_media ∧
        call.non_media_treatments = parseListFlag args.non_media_treatments) := by
  refine ⟨rfl, rfl, ?_, ?_, ?_⟩
  · intro hs
    simp only [parseListFlag, if_neg hs, parseControls, List.filter_map]
    rfl
  · intro hv hx
    match v with
    | none => exact Option.noConfusion hv
    | some s' =>
        by_cases hs' : s' = ""
        · simp [parseListFlag, hs'] at hv
        · simp only [parseListFlag, if_neg hs'] at hv
          rw [Option.some.injEq] at hv
          subst hv
          simp only [parseControls, List.mem_map, List.mem_filter] at hx
          obtain ⟨c, ⟨_, hcne⟩, rfl⟩ := hx
          refine ⟨by simpa using hcne, pyStrip_idem c, ?_, ?_⟩
          · intro ch hch
            exact pyStripList_head_not_space c.data ch hch
          · intro ch hch
            exact pyStripList_getLast_not_space c.data ch hch
  · intro h
    unfold cliTrain at h
    dsimp only at h
    split at h
    · exact absurd h (by simp)
    · rw [Prod.mk.injEq] at h
      obtain ⟨-, ho⟩ := h
      injection ho with ho'
      subst ho'
      exact ⟨rfl, rfl, rfl, rfl, rfl⟩

/-- concrete CLI arguments with two media and two media-spend channels -/
def argsC8 : CliTrainArgs :=
  { csv_path := "data.csv", kpi_type := "revenue", time := "week", kpi := "sales"
    controls := "trend, seasonality", geo := "region", population := "population"
    revenue_per_kpi := none, media := some " tv , radio ,"
    media_spend := some "tv_spend,radio_spend", organic_media := none
    non_media_treatments := none, roi_mu := 1, roi_sigma := 1, max_lag := 8
    n_draws := 100, n_chains := 7, n_adapt := 500, n_burnin := 500, n_keep := 1000
    output := "model.pkl", verbose := false }

/-- the pipeline call `argsC8` produces -/
def callC8 : TrainingPipelineCall :=
  { csv_path := "data.csv", kpi_type := "revenue", time := "week", kpi := "sales"
    controls := ["trend", "seasonality"], geo := "region", population := "population"
    revenue_per_kpi := none, media := some ["tv", "radio"]
    media_spend := some ["tv_spend", "radio_spend"], organic_media := none
    non_media_treatments := none, roi_mu := 1, roi_sigma := 1, max_lag := 8
    n_draws := 100, n_chains := 7, n_adapt := 500, n_burnin := 500, n_keep := 1000
    file_path := "model.pkl" }

/-- C8 witness at concrete flag values -/
theorem c8_witness :
    parseListFlag (some " tv , radio ,") = some ["tv", "radio"] ∧
    "tv" ≠ "" ∧ pyStrip "tv" = "tv" ∧
    callC8.media = parseListFlag argsC8.media ∧
    callC8.controls = parseControls argsC8.controls := by
  have h := c8_list_flag_parsing " tv , radio ," (some " tv , radio ,")
    ["tv", "radio"] "tv" argsC8 [] callC8
  have h4 := h.2.2.2.1 (by decide) (by decide)
  have h5 := h.2.2.2.2 (by rfl)
  exact ⟨(h.2.2.1 (by decide)).trans (by decide), h4.1, h4.2.1, h5.2.1, h5.1⟩

/-! ## C5 — CLI media / media-spend length guard -/

/-- whether the command body reached the pipeline invocation -/
def CliOutcome.isInvoked : CliOutcome → Bool
  | .invoked _ => true
  | .exited _ => false

/-- `argsC8` with a media-spend flag that parses to the empty list -/
def argsC5 : CliTrainArgs :=
  { argsC8 with media := some "tv,radio", media_spend := some "," }

/-- C5 counterexample: with `--media "tv,radio"` and `--media-spend ","`
both flags are provided and the parsed lists have different lengths
(2 vs 0), yet the command does not exit: the guard
`if media_list and media_spend_list and len(...) != len(...)` treats the
empty parsed list as falsy, so the training pipeline is invoked. -/
theorem c5_counterexample :
    argsC5.media = some "tv,radio" ∧
    argsC5.media_spend = some "," ∧
    parseListFlag argsC5.media = some ["tv", "radio"] ∧
    parseListFlag argsC5.media_spend = some [] ∧
    (["tv", "radio"] : List String).length ≠ ([] : List String).length ∧
    CliOutcome.isInvoked (cliTrain argsC5).2 = true := by
  exact ⟨rfl, rfl, by decide, by decide, by decide, rfl⟩

/-- C5 amended: when both channel-list flags parse to non-empty lists of
different lengths, the command reports the mismatch on the console and
exits with code 1 without invoking the training pipeline.  (When one of
the parsed lists is empty the guard is skipped and the pipeline is
invoked, per the counterexample.) -/
theorem c5_mismatched_nonempty_lists_abort
    (args : CliTrainArgs) (l1 l2 : List String)
    (h1 : parseListFlag args.media = some l1)
    (h2 : parseListFlag args.media_spend = some l2)
    (hn1 : l1 ≠ []) (hn2 : l2 ≠ [])
    (hne : l1.length ≠ l2.length) :
    cliTrain args = ([CliEv.consoleError mismatchMsg], CliOutcome.exited 1) := by
  have e1 : l1.isEmpty = false := List.isEmpty_eq_false.mpr hn1
  have e2 : l2.isEmpty = false := List.isEmpty_eq_false.mpr hn2
  unfold cliTrain
  dsimp only
  rw [h1, h2]
  rw [if_pos]
  simp [pyTruthy, optLen, e1, e2, bne_iff_ne, hne]

/-- `argsC8` with two media channels and one media-spend channel -/
def argsC5w : CliTrainArgs :=
  { argsC8 with media := some "tv,radio", media_spend := some "tv_spend" }

/-- C5 witness: at a concrete non-empty mismatched input, the command
exits with code 1 -/
theorem c5_witness :
    cliTrain argsC5w = ([CliEv.consoleError mismatchMsg], CliOutcome.exited 1) :=
  c5_mismatched_nonempty_lists_abort argsC5w ["tv", "radio"] ["tv_spend"]
    (by decide) (by decide) (by decide) (by decide) (by decide)

/-! ## C6 — configuration source merging -/

/-- C6: the customised source tuple is exactly the four sources
environment, dotenv, YAML (`baynext.yaml`) and CLI, in that fixed order
(`init_settings` and `file_secret_settings` are dropped); under the
pydantic-settings first-wins merge, a key provided by the environment
source resolves to the environment's value whatever the other sources
hold; and the environment keys use the prefix `BAYNEXT_` with nested
delimiter `__`. -/
theorem c6_settings_sources
    (s : SourcesIn) (amb : AmbientSources) (key v : String)
    (henv : s.env_settings key = some v) :
    settings_customise_sources s amb
      = [s.env_settings, s.dotenv_settings, amb.yamlFile "baynext.yaml", amb.cliArgs] ∧
    (settings_customise_sources s amb).length = 4 ∧
    resolveSetting (settings_customise_sources s amb) key = some v ∧
    SettingsConfigDict.env_prefix pipelineModelConfig = "BAYNEXT_" ∧
    SettingsConfigDict.env_nested_delimiter pipelineModelConfig = "__" := by
  refine ⟨rfl, rfl, ?_, rfl, rfl⟩
  simp [settings_customise_sources, resolveSetting, henv]

/-- concrete environment source holding one prefixed key -/
def envMapEx : SrcMap :=
  fun k => if k = "BAYNEXT_TRAIN__SAMPLE_PRIOR__N_DRAWS" then some "250" else none

/-- concrete dotenv source giving the same key a different value -/
def dotenvMapEx : SrcMap :=
  fun k => if k = "BAYNEXT_TRAIN__SAMPLE_PRIOR__N_DRAWS" then some "111" else none

/-- concrete input sources -/
def sourcesInEx : SourcesIn :=
  { init_settings := fun _ => none
    env_settings := envMapEx
    dotenv_settings := dotenvMapEx
    file_secret_settings := fun _ => none }

/-- concrete ambient sources: the YAML file and CLI also set the key -/
def ambientEx : AmbientSources :=
  { yamlFile := fun _ => fun k =>
      if k = "BAYNEXT_TRAIN__SAMPLE_PRIOR__N_DRAWS" then some "99" else none
    cliArgs := fun k =>
      if k = "BAYNEXT_TRAIN__SAMPLE_PRIOR__N_DRAWS" then some "42" else none }

/-- C6 witness: with all four sources providing the key, resolution
returns the environment's value -/
theorem c6_witness :
    resolveSetting (settings_customise_sources sourcesInEx ambientEx)
      "BAYNEXT_TRAIN__SAMPLE_PRIOR__N_DRAWS" = some "250" ∧
    (settings_customise_sources sourcesInEx ambientEx).length = 4 ∧
    SettingsConfigDict.env_prefix pipelineModelConfig = "BAYNEXT_" ∧
    SettingsConfigDict.env_nested_delimiter pipelineModelConfig = "__" := by
  have h := c6_settings_sources sourcesInEx ambientEx
    "BAYNEXT_TRAIN__SAMPLE_PRIOR__N_DRAWS" "250" (by decide)
  exact ⟨h.2.2.1, h.2.1, h.2.2.2.1, h.2.2.2.2⟩

/-! ## C9 — guard `ValueError`s of train / analyze / visualize -/

/-- C9: with no dataset held, `Pipeline.train` raises `ValueError`
having emitted only the stage banner (no training task call) and leaves
the state unchanged; with no model held, `Pipeline.analyze` and
`Pipeline.visualize` raise `ValueError` before any event and leave the
state unchanged. -/
theorem c9_stage_guards (ext : ExtOracle) (cfg : PipelineConfig) (st : PipelineState) :
    (st.data_ = none →
        Pipeline.train ext cfg st
          = ([Ev.logInfo "🧠 Start Meridian model training..."], st,
             some Err.valueError)) ∧
    (st.model_ = none →
        Pipeline.analyze ext st = ([], st, some Err.valueError)) ∧
    (st.model_ = none →
        Pipeline.visualize ext st = ([], st, some Err.valueError)) := by
  refine ⟨fun h => ?_, fun h => ?_, fun h => ?_⟩
  · simp [Pipeline.train, h]
  · simp [Pipeline.analyze, h]
  · simp [Pipeline.visualize, h]

/-- C9 witness on the freshly initialised pipeline state -/
theorem c9_witness :
    Pipeline.train extOk pipelineCfgEx PipelineState.init
      = ([Ev.logInfo "🧠 Start Meridian model training..."], PipelineState.init,
         some Err.valueError) ∧
    Pipeline.analyze extOk PipelineState.init
      = ([], PipelineState.init, some Err.valueError) ∧
    Pipeline.visualize extOk PipelineState.init
      = ([], PipelineState.init, some Err.valueError) := by
  have h := c9_stage_guards extOk pipelineCfgEx PipelineState.init
  exact ⟨h.1 rfl, h.2.1 rfl, h.2.2 rfl⟩

/-! ## C7 — LogConfig toggles -/

/-- whether an event trace ever enables system-metrics logging -/
def sysMetricsEnabled (evs : List Ev) : Bool :=
  evs.any fun e =>
    match e with
    | Ev.enableSystemMetrics => true
    | _ => false

/-- no load-stage event enables system metrics -/
theorem sysMetricsEnabled_load (ext : ExtOracle) (cfg : PipelineConfig)
    (st : PipelineState) :
    sysMetricsEnabled (Pipeline.load ext cfg st).1 = false := by
  rcases hl : ext.loadRes with e | d
  · simp [Pipeline.load, hl, sysMetricsEnabled]
  · cases hd : cfg.log.dataset
    all_goals simp [Pipeline.load, hl, hd, sysMetricsEnabled]

/-- no train-stage event enables system metrics -/
theorem sysMetricsEnabled_train (ext : ExtOracle) (cfg : PipelineConfig)
    (st : PipelineState) :
    sysMetricsEnabled (Pipeline.train ext cfg st).1 = false := by
  rcases hst : st.data_ with _ | d
  · simp [Pipeline.train, hst, sysMetricsEnabled]
  · rcases ht : ext.trainRes d cfg.train with e | m
    · simp [Pipeline.train, hst, ht, sysMetricsEnabled]
    · cases hm : cfg.log.model
      all_goals simp [Pipeline.train, hst, ht, hm, sysMetricsEnabled]

/-- no analyze-stage event enables system metrics -/
theorem sysMetricsEnabled_analyze (ext : ExtOracle) (st : PipelineState) :
    sysMetricsEnabled (Pipeline.analyze ext st).1 = false := by
  rcases hst : st.model_ with _ | m
  · simp [Pipeline.analyze, hst, sysMetricsEnabled]
  · rcases ha : ext.analyzeRes m with e | u
    · simp [Pipeline.analyze, hst, ha, sysMetricsEnabled]
    · simp [Pipeline.analyze, hst, ha, sysMetricsEnabled]

/-- no visualize-stage event enables system metrics -/
theorem sysMetricsEnabled_visualize (ext : ExtOracle) (st : PipelineState) :
    sysMetricsEnabled (Pipeline.visualize ext st).1 = false := by
  rcases hst : st.model_ with _ | m
  · simp [Pipeline.visualize, hst, sysMetricsEnabled]
  · rcases hv : ext.visualizeRes m with e | u
    · simp [Pipeline.visualize, hst, hv, sysMetricsEnabled]
    · simp [Pipeline.visualize, hst, hv, sysMetricsEnabled]

/-- no event of a whole pipeline run enables system metrics -/
theorem sysMetricsEnabled_run (ext : ExtOracle) (cfg : PipelineConfig) :
    sysMetricsEnabled (Pipeline.run ext cfg).1 = false := by
  rcases h1 : Pipeline.load ext cfg PipelineState.init with ⟨e1, s1, r1⟩
  have he1 : sysMetricsEnabled e1 = false := by
    have := sysMetricsEnabled_load ext cfg PipelineState.init
    rw [h1] at this; exact this
  rcases h2 : Pipeline.train ext cfg s1 with ⟨e2, s2, r2⟩
  have he2 : sysMetricsEnabled e2 = false := by
    have := sysMetricsEnabled_train ext cfg s1
    rw [h2] at this; exact this
  rcases h3 : Pipeline.analyze ext s2 with ⟨e3, s3, r3⟩
  have he3 : sysMetricsEnabled e3 = false := by
    have := sysMetricsEnabled_analyze ext s2
    rw [h3] at this; exact this
  rcases h4 : Pipeline.visualize ext s3 with ⟨e4, s4, r4⟩
  have he4 : sysMetricsEnabled e4 = false := by
    have := sysMetricsEnabled_visualize ext s3
    rw [h4] at this; exact this
  unfold Pipeline.run
  rw [h1]
  rcases r1 with _ | err1
  · dsimp only
    rw [h2]
    rcases r2 with _ | err2
    · dsimp only
      rw [h3]
      rcases r3 with _ | err3
      · dsimp only
        rw [h4]
        rcases r4 with _ | err4
        · simp only [sysMetricsEnabled] at he1 he2 he3 he4
          simp [sysMetricsEnabled, List.any_append, he1, he2, he3, he4]
        · simp only [sysMetricsEnabled] at he1 he2 he3 he4
          simp [sysMetricsEnabled, List.any_append, he1, he2, he3, he4]
      · simp only [sysMetricsEnabled] at he1 he2 he3
        simp [sysMetricsEnabled, List.any_append, he1, he2, he3]
    · simp only [sysMetricsEnabled] at he1 he2
      simp [sysMetricsEnabled, List.any_append, he1, he2]
  · simp only [sysMetricsEnabled] at he1
    simp [sysMetricsEnabled, List.any_append, he1]

/-- C7: the dataset is logged in the load stage iff `log.dataset`; the
model is logged in the train stage iff `log.model`; Meridian autologging
is invoked first, with `log_metrics` equal to `log.metrics`; the load
and train stages are unaffected by the other toggles, and the whole run
is unaffected by `log.system_metrics` — but, contrary to the claim and
to the field's own description, no pipeline run ever enables
system-metrics logging, whatever the oracle and config, in particular at
the failing input `pipelineCfgEx` whose `log.system_metrics` is `true`. -/
theorem c7_log_toggles (cfg : PipelineConfig) (st : PipelineState) :
    (Ev.logDatasetEv cfg.load.source ∈ (Pipeline.load extOk cfg st).1
        ↔ cfg.log.dataset = true) ∧
    (Ev.logModelEv ⟨1⟩ ∈ (Pipeline.train extOk cfg { st with data_ := some ⟨0⟩ }).1
        ↔ cfg.log.model = true) ∧
    (run_pipeline extOk cfg).1.head? = some (Ev.autologCall cfg.log.metrics) ∧
    (∀ ext : ExtOracle, sysMetricsEnabled (run_pipeline ext cfg).1 = false) ∧
    (∀ b : Bool,
        Pipeline.run extOk { cfg with log := { cfg.log with system_metrics := b } }
          = Pipeline.run extOk cfg) ∧
    (∀ b1 b2 b3 : Bool,
        Pipeline.load extOk
            { cfg with
                log := { cfg.log with metrics := b1, model := b2, system_metrics := b3 } }
            st
          = Pipeline.load extOk cfg st) ∧
    (∀ b1 b2 b3 : Bool,
        Pipeline.train extOk
            { cfg with
                log := { cfg.log with metrics := b1, dataset := b2, system_metrics := b3 } }
            st
          = Pipeline.train extOk cfg st) ∧
    pipelineCfgEx.log.system_metrics = true ∧
    sysMetricsEnabled (run_pipeline extOk pipelineCfgEx).1 = false := by
  refine ⟨?_, ?_, ?_, ?_, fun b => rfl, fun b1 b2 b3 => rfl, fun b1 b2 b3 => rfl,
    rfl, ?_⟩
  · cases hd : cfg.log.dataset
    all_goals simp [Pipeline.load, extOk, hd]
  · cases hm : cfg.log.model
    all_goals simp [Pipeline.train, extOk, hm]
  · simp [run_pipeline]
  · intro ext
    rcases hr : Pipeline.run ext cfg with ⟨evs, res⟩
    have h := sysMetricsEnabled_run ext cfg
    rw [hr] at h
    simp only [sysMetricsEnabled] at h
    simp [run_pipeline, hr, sysMetricsEnabled, List.any_append, h]
  · decide

/-! ## C1 — strict stage order, per-stage error logging, abort on failure -/

/-- C1: the pipeline runs load, train, analyze, visualize strictly in
this order (the stage-call trace is always a prefix of the four-stage
sequence, so no retry and no reordering); each stage consumes the
previous stage's output (a train call's dataset is exactly the load
result, analyzer and visualizer receive exactly the trained model); when
a stage's external work raises, the run emits that stage's exception log
as its final event, re-raises the same error, and no later stage call
appears; when every stage succeeds, all four stages ran and no exception
was logged. -/
theorem c1_run_sequential_abort (ext : ExtOracle) (cfg : PipelineConfig) :
    (stageCalls (Pipeline.run ext cfg).1
        <+: [StageTag.load, StageTag.train, StageTag.analyze, StageTag.visualize]) ∧
    (∀ e, ext.loadRes = .error e →
        (Pipeline.run ext cfg).2 = some e ∧
        stageCalls (Pipeline.run ext cfg).1 = [StageTag.load] ∧
        (Pipeline.run ext cfg).1.getLast? = some (Ev.logException msgLoadErr)) ∧
    (∀ d e, ext.loadRes = .ok d → ext.trainRes d cfg.train = .error e →
        (Pipeline.run ext cfg).2 = some e ∧
        stageCalls (Pipeline.run ext cfg).1 = [StageTag.load, StageTag.train] ∧
        (Pipeline.run ext cfg).1.getLast? = some (Ev.logException msgTrainErr)) ∧
    (∀ d m e, ext.loadRes = .ok d → ext.trainRes d cfg.train = .ok m →
        ext.analyzeRes m = .error e →
        (Pipeline.run ext cfg).2 = some e ∧
        stageCalls (Pipeline.run ext cfg).1
          = [StageTag.load, StageTag.train, StageTag.analyze] ∧
        (Pipeline.run ext cfg).1.getLast? = some (Ev.logException msgAnalyzeErr)) ∧
    (∀ d m e, ext.loadRes = .ok d → ext.trainRes d cfg.train = .ok m →
        ext.analyzeRes m = .ok () → ext.visualizeRes m = .error e →
        (Pipeline.run ext cfg).2 = some e ∧
        stageCalls (Pipeline.run ext cfg).1
          = [StageTag.load, StageTag.train, StageTag.analyze, StageTag.visualize] ∧
        (Pipeline.run ext cfg).1.getLast? = some (Ev.logException msgVisualizeErr)) ∧
    (∀ d m, ext.loadRes = .ok d → ext.trainRes d cfg.train = .ok m →
        ext.analyzeRes m = .ok () → ext.visualizeRes m = .ok () →
        (Pipeline.run ext cfg).2 = none ∧
        stageCalls (Pipeline.run ext cfg).1
          = [StageTag.load, StageTag.train, StageTag.analyze, StageTag.visualize] ∧
        hasException (Pipeline.run ext cfg).1 = false) ∧
    (∀ d tc, Ev.trainTaskCall d tc ∈ (Pipeline.run ext cfg).1 →
        ext.loadRes = .ok d ∧ tc = cfg.train) ∧
    (∀ m, Ev.analyzerCall m ∈ (Pipeline.run ext cfg).1 →
        ∃ d, ext.loadRes = .ok d ∧ ext.trainRes d cfg.train = .ok m) ∧
    (∀ m, Ev.visualizerCall m ∈ (Pipeline.run ext cfg).1 →
        ∃ d, ext.loadRes = .ok d ∧ ext.trainRes d cfg.train = .ok m) := by
  rcases hl : ext.loadRes with e | d
  · simp [Pipeline.run, Pipeline.load, Pipeline.train, Pipeline.analyze,
      Pipeline.visualize, hl, stageCalls, hasException, List.cons_prefix_cons]
  · cases hd : cfg.log.dataset
    · rcases ht : ext.trainRes d cfg.train with e | m
      · simp [Pipeline.run, Pipeline.load, Pipeline.train, Pipeline.analyze,
          Pipeline.visualize, hl, hd, ht, stageCalls, hasException,
          List.cons_prefix_cons] <;> aesop
      · cases hm : cfg.log.model
        · rcases ha : ext.analyzeRes m with e | u
          · simp [Pipeline.run, Pipeline.load, Pipeline.train, Pipeline.analyze,
              Pipeline.visualize, hl, hd, ht, hm, ha, stageCalls, hasException,
              List.cons_prefix_cons] <;> aesop
          · rcases hv : ext.visualizeRes m with e | u2
            · simp [Pipeline.run, Pipeline.load, Pipeline.train, Pipeline.analyze,
                Pipeline.visualize, hl, hd, ht, hm, ha, hv, stageCalls, hasException,
                List.cons_prefix_cons] <;> aesop
            · simp [Pipeline.run, Pipeline.load, Pipeline.train, Pipeline.analyze,
                Pipeline.visualize, hl, hd, ht, hm, ha, hv, stageCalls, hasException,
                List.cons_prefix_cons] <;> aesop
        · rcases ha : ext.analyzeRes m with e | u
          · simp [Pipeline.run, Pipeline.load, Pipeline.train, Pipeline.analyze,
              Pipeline.visualize, hl, hd, ht, hm, ha, stageCalls, hasException,
              List.cons_prefix_cons] <;> aesop
          · rcases hv : ext.visualizeRes m with e | u2
            · simp [Pipeline.run, Pipeline.load, Pipeline.train, Pipeline.analyze,
                Pipeline.visualize, hl, hd, ht, hm, ha, hv, stageCalls, hasException,
                List.cons_prefix_cons] <;> aesop
            · simp [Pipeline.run, Pipeline.load, Pipeline.train, Pipeline.analyze,
                Pipeline.visualize, hl, hd, ht, hm, ha, hv, stageCalls, hasException,
                List.cons_prefix_cons] <;> aesop
    · rcases ht : ext.trainRes d cfg.train with e | m
      · simp [Pipeline.run, Pipeline.load, Pipeline.train, Pipeline.analyze,
          Pipeline.visualize, hl, hd, ht, stageCalls, hasException,
          List.cons_prefix_cons] <;> aesop
      · cases hm : cfg.log.model
        · rcases ha : ext.analyzeRes m with e | u
          · simp [Pipeline.run, Pipeline.load, Pipeline.train, Pipeline.analyze,
              Pipeline.visualize, hl, hd, ht, hm, ha, stageCalls, hasException,
              List.cons_prefix_cons] <;> aesop
          · rcases hv : ext.visualizeRes m with e | u2
            · simp [Pipeline.run, Pipeline.load, Pipeline.train, Pipeline.analyze,
                Pipeline.visualize, hl, hd, ht, hm, ha, hv, stageCalls, hasException,
                List.cons_prefix_cons] <;> aesop
            · simp [Pipeline.run, Pipeline.load, Pipeline.train, Pipeline.analyze,
                Pipeline.visualize, hl, hd, ht, hm, ha, hv, stageCalls, hasException,
                List.cons_prefix_cons] <;> aesop
        · rcases ha : ext.analyzeRes m with e | u
          · simp [Pipeline.run, Pipeline.load, Pipeline.train, Pipeline.analyze,
              Pipeline.visualize, hl, hd, ht, hm, ha, stageCalls, hasException,
              List.cons_prefix_cons] <;> aesop
          · rcases hv : ext.visualizeRes m with e | u2
            · simp [Pipeline.run, Pipeline.load, Pipeline.train, Pipeline.analyze,
                Pipeline.visualize, hl, hd, ht, hm, ha, hv, stageCalls, hasException,
                List.cons_prefix_cons] <;> aesop
            · simp [Pipeline.run, Pipeline.load, Pipeline.train, Pipeline.analyze,
                Pipeline.visualize, hl, hd, ht, hm, ha, hv, stageCalls, hasException,
                List.cons_prefix_cons] <;> aesop

/-- C1 witness: on an oracle whose training task raises, the run aborts
after load and train, logs the train-stage exception last, and re-raises
the same error -/
theorem c1_witness :
    (Pipeline.run extTrainFail pipelineCfgEx).2 = some (Err.external 7) ∧
    stageCalls (Pipeline.run extTrainFail pipelineCfgEx).1
      = [StageTag.load, StageTag.train] ∧
    (Pipeline.run extTrainFail pipelineCfgEx).1.getLast?
      = some (Ev.logException msgTrainErr) := by
  have h := c1_run_sequential_abort extTrainFail pipelineCfgEx
  exact h.2.2.1 ⟨0⟩ (Err.external 7) rfl rfl
